import Mathlib

/-!
Verification of the dataflow core (`dataflow/core.py`): the module registry,
the graph model (Module, Template, Instrument, Datatype, Data), the topology
resolver used by `Template.order`, and the version-tagged pickling protocol.

Python values are embedded shallowly: dicts of attributes become structures,
Python exceptions become an explicit error type threaded through `Except`,
and the process-wide registry dict becomes an explicit state argument.
-/

namespace Dataflow

/-- Errors raised by the core, one constructor per `raise` site.
`cycleError` is the resolver's cycle rejection; `moduleAlreadyRegistered` is
`ValueError("Module already registered")`; `keyError` is the dict lookup
failure in `lookup_module`; `undefinedTypes`/`unusedTypes` are the two
`TypeError`s of `Instrument._check_datatypes` (the spec's datatype-invariant
violation); `duplicateNames` is the `TypeError` of `Instrument._check_names`;
`templateFormatMismatch` is `TypeError('Template definition mismatch')`;
`nameError` models a Python `NameError` on an unbound name. -/
inductive PyErr where
  | cycleError
  | moduleAlreadyRegistered
  | keyError (id : String)
  | undefinedTypes
  | unusedTypes
  | duplicateNames
  | templateFormatMismatch
  | nameError (id : String)
deriving DecidableEq

/-! ### Topology resolver

`Template.order` calls `processing_order(len(self.modules), pairs)` imported
from `dataflow.deps`, a file that is not part of the sources at hand. -/

/-- A directed edge `(u, v)`: node `u` must be evaluated before node `v`. -/
abbrev Edge := Nat × Nat

/-- A node `v` is ready w.r.t. the not-yet-emitted nodes `remaining` when no
edge out of a remaining node targets it (its in-degree among `remaining` is
zero). -/
def ready (pairs : List Edge) (remaining : List Nat) (v : Nat) : Bool :=
  pairs.all fun p => decide (p.2 = v → p.1 ∉ remaining)

/-- Modelled from the spec: one round of Kahn's algorithm per fuel unit.
Among the remaining nodes the first ready one is emitted; `remaining` starts
as `List.range n` and stays sorted, so "first" is the smallest original node
index, the spec's stable tie-break.  If no remaining node is ready the wiring
has a cycle and the resolver fails with `CycleError`.  The fuel starts at the
node count and never runs out, since every round removes one node. -/
def kahnLoop (pairs : List Edge) : Nat → List Nat → Except PyErr (List Nat)
  | _, [] => .ok []
  | 0, _ :: _ => .error .cycleError
  | fuel + 1, v0 :: rest =>
    match (v0 :: rest).find? (ready pairs (v0 :: rest)) with
    | none => .error .cycleError
    | some v => (kahnLoop pairs fuel ((v0 :: rest).erase v)).map (v :: ·)

/-- Modelled from the spec: `processing_order` lives in `dataflow.deps`,
which is absent from the sources; per the spec it is a deterministic
topological sort (Kahn's algorithm with in-degree counts) over `n` nodes
with a stable smallest-index tie-break, failing with `CycleError` on any
cycle (self-loops included) before producing anything. -/
def processing_order (n : Nat) (pairs : List Edge) : Except PyErr (List Nat) :=
  kahnLoop pairs n (List.range n)

/-- The edge relation generated by an edge list. -/
def edgeRel (pairs : List Edge) (u v : Nat) : Prop := (u, v) ∈ pairs

/-- A wiring has a cycle when some nonempty edge path leads from a node back
to itself; `p` lists the intermediate nodes.  A self-loop is `p = []`. -/
def HasCycle (pairs : List Edge) : Prop :=
  ∃ v p, List.Chain (edgeRel pairs) v (p ++ [v])

/-! ### Modules and the registry -/

/-- One terminal of a module, as the dicts built in `dataflow/modules/*.py`:
name, datatype id, direction (`"in"` or `"out"`), tooltip, and the
input-only `required` / `multiple` flags. -/
structure Terminal where
  id : String
  datatype : String
  use : String
  description : String
  required : Bool
  multiple : Bool
deriving DecidableEq

/-- A processing module (`class Module`). `oid` stands for the Python object
identity of the instance: `Module` defines no `__eq__`, so `==`/`!=` on
modules compare identity, which the registry's conflict check relies on.
The icon dict, the inputEx form and the action callable are opaque to the
core and carried as abstract tokens. -/
structure Module where
  oid : Nat
  id : String
  version : String
  name : String
  description : String
  icon : Option String
  fields : List String
  terminals : List Terminal
  action : Option String
deriving DecidableEq

/-- Structural identity of two module definitions: every attribute set by
`Module.__init__` agrees; only the object identity `oid` may differ. -/
def Module.structEq (m₁ m₂ : Module) : Prop :=
  m₁.id = m₂.id ∧ m₁.version = m₂.version ∧ m₁.name = m₂.name ∧
  m₁.description = m₂.description ∧ m₁.icon = m₂.icon ∧
  m₁.fields = m₂.fields ∧ m₁.terminals = m₂.terminals ∧ m₁.action = m₂.action

instance (m₁ m₂ : Module) : Decidable (m₁.structEq m₂) := by
  unfold Module.structEq; infer_instance

/-- The process-wide registry dict `_registry`, as a map from module id to
the registered module. -/
abbrev Registry := String → Option Module

/-- The registry starts out empty (`_registry = {}`). -/
def emptyRegistry : Registry := fun _ => none

/-- Dict assignment `_registry[id] = m`. -/
def Registry.store (r : Registry) (id : String) (m : Module) : Registry :=
  fun x => if x = id then some m else r x

/-- Python `register_module(module)`: raise `ValueError` when the id is taken by a
module that is not the same object (`module != _registry[module.id]` is
Python identity inequality, `Module` defining no `__eq__`), else store. -/
def register_module (r : Registry) (m : Module) : Except PyErr Registry :=
  match r m.id with
  | some existing =>
    if m.oid ≠ existing.oid then .error .moduleAlreadyRegistered
    else .ok (r.store m.id m)
  | none => .ok (r.store m.id m)

/-- Python `lookup_module(id)`: dict lookup, `KeyError` when absent. -/
def lookup_module (r : Registry) (id : String) : Except PyErr Module :=
  match r id with
  | some m => .ok m
  | none => .error (.keyError id)

/-! ### Templates -/

/-- A wire of a template: `source` and `target` each pair a node index in the
template with a terminal name in that node's module. -/
structure Wire where
  source : Nat × String
  target : Nat × String
deriving DecidableEq

/-- A node instance of a template: module id, module version, initial field
configuration, canvas position. -/
structure TemplateModule where
  module : String
  version : String
  config : List (String × String)
  position : Int × Int
deriving DecidableEq

/-- A template (`class Template`): the attribute dict set by
`Template.__init__`. -/
structure Template where
  name : String
  description : String
  modules : List TemplateModule
  wires : List Wire
  instrument : String
  version : String
deriving DecidableEq

/-- The `(source node, target node)` pairs `Template.order()` extracts from
the wires. -/
def Template.edges (t : Template) : List Edge :=
  t.wires.map fun w => (w.source.1, w.target.1)

/-- Python `Template.order()`: processing order of the node indices, from the
node count and the wires' `(source node, target node)` pairs. -/
def Template.order (t : Template) : Except PyErr (List Nat) :=
  processing_order t.modules.length t.edges

/-- Python `Template.__iter__()`: for each node index in processing order, the node
index paired with the wires into it, kept in wire declaration order. -/
def Template.iter (t : Template) : Except PyErr (List (Nat × List Wire)) :=
  (t.order).map fun ord =>
    ord.map fun id => (id, t.wires.filter fun w => w.target.1 == id)

/-- Python `Template.__getstate__()`: the pair of the supported format tag `'1.0'`
and the attribute dict. -/
def Template.getstate (t : Template) : String × Template := ("1.0", t)

/-- Python `Template.__setstate__(state)`: unpack `(version, state)` and reject any
tag other than `'1.0'` with `TypeError('Template definition mismatch')`. -/
def Template.setstate (s : String × Template) : Except PyErr Template :=
  if s.1 = "1.0" then .ok s.2 else .error .templateFormatMismatch

/-! ### Instruments and datatypes -/

/-- A datatype (`class Datatype`). -/
structure Datatype where
  id : String
  name : String
  plot : Option String
deriving DecidableEq

/-- Python `Datatype.__init__`: the display name defaults to the capitalized id. -/
def Datatype.make (id : String) (name : Option String) (plot : Option String) :
    Datatype :=
  { id := id, name := name.getD id.capitalize, plot := plot }

/-- Python `Instrument.__init__`'s module list: the groups of the menu,
concatenated in order. -/
def instrument_modules (menu : List (String × List Module)) : List Module :=
  (menu.map Prod.snd).flatten

/-- The datatype ids referenced by the terminals of a module list, as
gathered by `Instrument._check_datatypes` (`used`). -/
def terminal_datatypes (modules : List Module) : List String :=
  (modules.map fun m => m.terminals.map Terminal.datatype).flatten

/-- Python `Instrument._check_datatypes`: the datatype ids used by the modules'
terminals must carry no id outside the declared list (else
`TypeError("undefined types: ...")`, checked first) and the declared list no
id never used (else `TypeError("unused types: ...")`). -/
def check_datatypes (datatypes : List Datatype) (modules : List Module) :
    Except PyErr Unit :=
  if ∃ t ∈ terminal_datatypes modules, t ∉ datatypes.map Datatype.id then
    .error .undefinedTypes
  else if ∃ t ∈ datatypes.map Datatype.id, t ∉ terminal_datatypes modules then
    .error .unusedTypes
  else .ok ()

/-- Python `Instrument._check_names`: the set of module display names must be as
large as the module list, else `TypeError("names must be unique within an
instrument")`. -/
def check_names (modules : List Module) : Except PyErr Unit :=
  if (modules.map Module.name).dedup.length ≠ modules.length then
    .error .duplicateNames
  else .ok ()

/-- An instrument (`class Instrument`): the attributes set by a completed
`Instrument.__init__`, with `modules` the flattened menu. -/
structure Instrument where
  id : String
  name : String
  menu : List (String × List Module)
  datatypes : List Datatype
  requires : Option String
  archive : Option String
  modules : List Module
deriving DecidableEq

/-- Python `Instrument.__init__`: flatten the menu into the module list, then run
`_check_datatypes` and `_check_names`; construction succeeds only when both
pass. -/
def mkInstrument (id name : String) (menu : List (String × List Module))
    (datatypes : List Datatype) (requires archive : Option String) :
    Except PyErr Instrument :=
  match check_datatypes datatypes (instrument_modules menu) with
  | .error e => .error e
  | .ok _ =>
    match check_names (instrument_modules menu) with
    | .error e => .error e
    | .ok _ =>
      .ok { id := id, name := name, menu := menu, datatypes := datatypes,
            requires := requires, archive := archive,
            modules := instrument_modules menu }

/-! ### Data -/

/-- One provenance entry of a Data history, per the `Data` docstring. -/
structure HistoryEntry where
  module : String
  version : String
  inputs : List (String × List (Nat × String))
  config : List (String × String)
  dataid : String
deriving DecidableEq

/-- The attribute dict of a `Data` object, per the `Data` docstring. -/
structure DataState where
  name : String
  datatype : String
  intent : String
  dataid : String
  history : List HistoryEntry
deriving DecidableEq

/-- Python `Data.__getstate__()`: the body `return "1.0", __dict__` names the bare
global `__dict__`, which is unbound, so every call raises `NameError`. -/
def Data.getstate (_d : DataState) : Except PyErr (String × DataState) :=
  .error (.nameError "__dict__")

/-- Python `Data.__setstate__(state)`: unpack `(version, state)` and assign the
dict; the unpacked version is never examined, so any tag is accepted. -/
def Data.setstate (s : String × DataState) : Except PyErr DataState :=
  .ok s.2

/-! ### Concrete sample objects, used to evaluate the definitions -/

/-- A join-style module, one output terminal of datatype `data2d.ospec`. -/
def modJoin : Module :=
  { oid := 0, id := "ncnr.ospec.join", version := "0.0", name := "Join",
    description := "Combine multiple datasets", icon := none, fields := [],
    terminals := [{ id := "output", datatype := "data2d.ospec", use := "out",
                    description := "Combined data", required := false,
                    multiple := false }],
    action := none }

/-- A second module object with the same definition as `modJoin` but its own
object identity, as produced by constructing the module a second time. -/
def modJoinTwin : Module := { modJoin with oid := 1 }

/-- A distinct module under a different id but the same display name. -/
def modJoinOther : Module := { modJoin with oid := 2, id := "ncnr.ospec.join2" }

/-- The registry after `register_module(modJoin)` on an empty registry. -/
def regJoin : Registry := emptyRegistry.store modJoin.id modJoin

/-- The offspecular 2-D datatype. -/
def dtype2d : Datatype := Datatype.make "data2d.ospec" (some "2-D Data") none

/-- A one-group menu with a single module. -/
def soloMenu : List (String × List Module) := [("Reduce", [modJoin])]

/-- A one-group menu holding two modules that share the display name. -/
def dupNameMenu : List (String × List Module) :=
  [("Reduce", [modJoin, modJoinOther])]

/-- A template node instance for a given module id. -/
def tnode (id : String) : TemplateModule :=
  { module := id, version := "0.0", config := [], position := (0, 0) }

/-- A two-node template wired `0 → 1`. -/
def chainTemplate : Template :=
  { name := "chain", description := "two nodes in a row",
    modules := [tnode "ncnr.ospec.load", tnode "ncnr.ospec.join"],
    wires := [{ source := (0, "output"), target := (1, "input") }],
    instrument := "ncnr.ospec", version := "0.0" }

/-- A one-node template whose single wire is a self-loop. -/
def loopTemplate : Template :=
  { name := "loop", description := "a self-loop",
    modules := [tnode "ncnr.ospec.join"],
    wires := [{ source := (0, "output"), target := (0, "input") }],
    instrument := "ncnr.ospec", version := "0.0" }

/-- A sample Data attribute dict. -/
def sampleData : DataState :=
  { name := "run42", datatype := "data2d.ospec", intent := "signal",
    dataid := "key42", history := [] }

/-! ## Topology resolver lemmas -/

/-- Unfolding `kahnLoop` on an empty remaining list. -/
theorem kahnLoop_nil (pairs : List Edge) (fuel : Nat) :
    kahnLoop pairs fuel [] = .ok [] := by
  cases fuel <;> rfl

/-- Unfolding `kahnLoop` on a nonempty remaining list with fuel left. -/
theorem kahnLoop_cons (pairs : List Edge) (fuel : Nat) (v0 : Nat)
    (rest : List Nat) :
    kahnLoop pairs (fuel + 1) (v0 :: rest) =
      match (v0 :: rest).find? (ready pairs (v0 :: rest)) with
      | none => .error .cycleError
      | some v => (kahnLoop pairs fuel ((v0 :: rest).erase v)).map (v :: ·) :=
  rfl

/-- Stepping the loop when no remaining node is ready. -/
theorem kahnLoop_cons_none (pairs : List Edge) (fuel : Nat) (v0 : Nat)
    (rest : List Nat)
    (hf : (v0 :: rest).find? (ready pairs (v0 :: rest)) = none) :
    kahnLoop pairs (fuel + 1) (v0 :: rest) = .error .cycleError := by
  rw [kahnLoop_cons, hf]

/-- Stepping the loop when `v` is the first ready remaining node. -/
theorem kahnLoop_cons_some (pairs : List Edge) (fuel : Nat) (v0 : Nat)
    (rest : List Nat) (v : Nat)
    (hf : (v0 :: rest).find? (ready pairs (v0 :: rest)) = some v) :
    kahnLoop pairs (fuel + 1) (v0 :: rest) =
      (kahnLoop pairs fuel ((v0 :: rest).erase v)).map (v :: ·) := by
  rw [kahnLoop_cons, hf]

/-- Readiness spelled out: no edge from a remaining node targets `v`. -/
theorem ready_iff (pairs : List Edge) (R : List Nat) (v : Nat) :
    ready pairs R v = true ↔ ∀ p ∈ pairs, p.2 = v → p.1 ∉ R := by
  simp only [ready, List.all_eq_true, decide_eq_true_iff]

/-- Readiness only depends on which nodes remain, not on their order. -/
theorem ready_congr (pairs : List Edge) {R R' : List Nat}
    (hRR : ∀ a, a ∈ R ↔ a ∈ R') (v : Nat) :
    ready pairs R v = true ↔ ready pairs R' v = true := by
  rw [ready_iff, ready_iff]
  constructor
  · intro h p hp h2 hmem
    exact h p hp h2 ((hRR _).mpr hmem)
  · intro h p hp h2 hmem
    exact h p hp h2 ((hRR _).mp hmem)

/-- A successful run of the loop emits exactly the remaining nodes, once
each. -/
theorem kahnLoop_ok_perm (pairs : List Edge) :
    ∀ (fuel : Nat) (R l : List Nat), kahnLoop pairs fuel R = .ok l →
      l.Perm R := by
  intro fuel
  induction fuel with
  | zero =>
    intro R l h
    cases R with
    | nil =>
      rw [kahnLoop_nil] at h
      rw [← Except.ok.inj h]
    | cons a R' => exact Except.noConfusion h
  | succ fuel ih =>
    intro R l h
    cases R with
    | nil =>
      rw [kahnLoop_nil] at h
      rw [← Except.ok.inj h]
    | cons v0 rest =>
      cases hf : (v0 :: rest).find? (ready pairs (v0 :: rest)) with
      | none =>
        rw [kahnLoop_cons_none pairs fuel v0 rest hf] at h
        exact Except.noConfusion h
      | some v =>
        rw [kahnLoop_cons_some pairs fuel v0 rest v hf] at h
        cases hrec : kahnLoop pairs fuel ((v0 :: rest).erase v) with
        | error e =>
          rw [hrec] at h
          exact Except.noConfusion h
        | ok l' =>
          rw [hrec] at h
          have hl : l = v :: l' := (Except.ok.inj h).symm
          subst hl
          have hv : v ∈ v0 :: rest := List.mem_of_find?_eq_some hf
          exact ((ih _ _ hrec).cons v).trans (List.perm_cons_erase hv).symm

/-- In a successful run, the source of every edge between remaining nodes is
emitted before the target: `[u, v]` is a sublist of the output. -/
theorem kahnLoop_ok_sublist (pairs : List Edge) :
    ∀ (fuel : Nat) (R l : List Nat), kahnLoop pairs fuel R = .ok l →
      ∀ u v : Nat, (u, v) ∈ pairs → u ∈ R → v ∈ R →
        List.Sublist [u, v] l := by
  intro fuel
  induction fuel with
  | zero =>
    intro R l h u v hp hu hv
    cases R with
    | nil => exact absurd hu (List.not_mem_nil u)
    | cons a R' => exact Except.noConfusion h
  | succ fuel ih =>
    intro R l h u v hp hu hv
    cases R with
    | nil => exact absurd hu (List.not_mem_nil u)
    | cons v0 rest =>
      cases hf : (v0 :: rest).find? (ready pairs (v0 :: rest)) with
      | none =>
        rw [kahnLoop_cons_none pairs fuel v0 rest hf] at h
        exact Except.noConfusion h
      | some w =>
        rw [kahnLoop_cons_some pairs fuel v0 rest w hf] at h
        cases hrec : kahnLoop pairs fuel ((v0 :: rest).erase w) with
        | error e =>
          rw [hrec] at h
          exact Except.noConfusion h
        | ok l' =>
          rw [hrec] at h
          have hl : l = w :: l' := (Except.ok.inj h).symm
          subst hl
          have hready : ready pairs (v0 :: rest) w = true := List.find?_some hf
          by_cases hvw : v = w
          · subst hvw
            exact absurd hu ((ready_iff pairs _ v).mp hready (u, v) hp rfl)
          · have hv' : v ∈ (v0 :: rest).erase w :=
              (List.mem_erase_of_ne hvw).mpr hv
            by_cases huw : u = w
            · subst huw
              have hvl : v ∈ l' :=
                (kahnLoop_ok_perm pairs fuel _ l' hrec).mem_iff.mpr hv'
              exact (List.singleton_sublist.mpr hvl).cons₂ u
            · have hu' : u ∈ (v0 :: rest).erase w :=
                (List.mem_erase_of_ne huw).mpr hu
              exact (ih _ _ hrec u v hp hu' hv').cons w

/-- On a sorted list, `find?` returns the least element satisfying the
predicate. -/
theorem find?_min_of_sorted {p : Nat → Bool} :
    ∀ {R : List Nat}, R.Pairwise (· ≤ ·) → ∀ {v : Nat}, R.find? p = some v →
      ∀ x ∈ R, p x = true → v ≤ x := by
  intro R
  induction R with
  | nil =>
    intro _ v h
    exact Option.noConfusion h
  | cons a R' ih =>
    intro hs v hf x hx hpx
    by_cases hpa : p a = true
    · rw [List.find?_cons_of_pos _ hpa] at hf
      have hv : v = a := (Option.some.inj hf).symm
      subst hv
      cases List.mem_cons.mp hx with
      | inl hxa => exact hxa ▸ Nat.le_refl v
      | inr hxR => exact (List.pairwise_cons.mp hs).1 x hxR
    · rw [List.find?_cons_of_neg _ hpa] at hf
      cases List.mem_cons.mp hx with
      | inl hxa => exact absurd (hxa ▸ hpx) hpa
      | inr hxR => exact ih (List.pairwise_cons.mp hs).2 hf x hxR hpx

/-- The spec's stable tie-break, extrinsically: at every point of a
successful run started from a sorted remaining list, the emitted node is the
least among the not-yet-emitted nodes that are ready there. -/
theorem kahnLoop_ok_min (pairs : List Edge) :
    ∀ (fuel : Nat) (R l : List Nat), R.Pairwise (· ≤ ·) →
      kahnLoop pairs fuel R = .ok l →
      ∀ l₁ w l₂, l = l₁ ++ w :: l₂ →
        ∀ x ∈ w :: l₂, ready pairs (w :: l₂) x = true → w ≤ x := by
  intro fuel
  induction fuel with
  | zero =>
    intro R l hs h l₁ w l₂ hsplit x hx hr
    cases R with
    | nil =>
      rw [kahnLoop_nil] at h
      have hl : l = [] := (Except.ok.inj h).symm
      subst hl
      exact absurd ((List.append_eq_nil.mp hsplit.symm).2) (List.cons_ne_nil w l₂)
    | cons a R' => exact Except.noConfusion h
  | succ fuel ih =>
    intro R l hs h l₁ w l₂ hsplit x hx hr
    cases R with
    | nil =>
      rw [kahnLoop_nil] at h
      have hl : l = [] := (Except.ok.inj h).symm
      subst hl
      exact absurd ((List.append_eq_nil.mp hsplit.symm).2) (List.cons_ne_nil w l₂)
    | cons v0 rest =>
      cases hf : (v0 :: rest).find? (ready pairs (v0 :: rest)) with
      | none =>
        rw [kahnLoop_cons_none pairs fuel v0 rest hf] at h
        exact Except.noConfusion h
      | some v =>
        rw [kahnLoop_cons_some pairs fuel v0 rest v hf] at h
        cases hrec : kahnLoop pairs fuel ((v0 :: rest).erase v) with
        | error e =>
          rw [hrec] at h
          exact Except.noConfusion h
        | ok l' =>
          rw [hrec] at h
          have hl : l = v :: l' := (Except.ok.inj h).symm
          subst hl
          cases l₁ with
          | nil =>
            rw [List.nil_append] at hsplit
            injection hsplit with h1 h2
            subst h1
            subst h2
            have hperm : (v :: l').Perm (v0 :: rest) :=
              ((kahnLoop_ok_perm pairs fuel _ l' hrec).cons v).trans
                (List.perm_cons_erase (List.mem_of_find?_eq_some hf)).symm
            have hxR : x ∈ v0 :: rest := hperm.mem_iff.mp hx
            have hrR : ready pairs (v0 :: rest) x = true :=
              (ready_congr pairs (fun a => hperm.mem_iff) x).mp hr
            exact find?_min_of_sorted hs hf x hxR hrR
          | cons a l₁' =>
            rw [List.cons_append] at hsplit
            injection hsplit with h1 h2
            exact ih _ l' (hs.sublist (List.erase_sublist v _)) hrec l₁' w l₂
              h2 x hx hr

/-- Along an edge chain, every listed node has a predecessor among the
start node and the list. -/
theorem chain_pred {R : Nat → Nat → Prop} :
    ∀ (l : List Nat) (v : Nat), List.Chain R v l →
      ∀ x ∈ l, ∃ u ∈ v :: l, R u x := by
  intro l
  induction l with
  | nil =>
    intro v _ x hx
    exact absurd hx (List.not_mem_nil x)
  | cons b l' ih =>
    intro v h x hx
    obtain ⟨hvb, hch⟩ := List.chain_cons.mp h
    cases List.mem_cons.mp hx with
    | inl hxb =>
      subst hxb
      exact ⟨v, List.mem_cons_self v _, hvb⟩
    | inr hxl =>
      obtain ⟨u, hu, hR⟩ := ih b hch x hxl
      exact ⟨u, List.mem_cons_of_mem v hu, hR⟩

/-- Every cycle yields a nonempty node set in which each node has a
predecessor inside the set. -/
theorem cycle_pred (pairs : List Edge) (h : HasCycle pairs) :
    ∃ S : List Nat, S ≠ [] ∧ ∀ x ∈ S, ∃ u ∈ S, (u, x) ∈ pairs := by
  obtain ⟨v, p, hch⟩ := h
  refine ⟨v :: p, List.cons_ne_nil v p, ?_⟩
  intro x hx
  have hx' : x ∈ p ++ [v] := by
    cases List.mem_cons.mp hx with
    | inl h =>
      subst h
      exact List.mem_append_right p (List.mem_cons_self x [])
    | inr h => exact List.mem_append_left [v] h
  obtain ⟨u, hu, hR⟩ := chain_pred (p ++ [v]) v hch x hx'
  refine ⟨u, ?_, hR⟩
  cases List.mem_cons.mp hu with
  | inl h =>
    subst h
    exact List.mem_cons_self u p
  | inr h =>
    cases List.mem_append.mp h with
    | inl h2 => exact List.mem_cons_of_mem v h2
    | inr h2 =>
      rw [List.mem_singleton.mp h2]
      exact List.mem_cons_self v p

/-- Inside a predecessor-closed set, backward walks of every length exist. -/
theorem exists_long_walk (pairs : List Edge) (S : List Nat) (hS : S ≠ [])
    (hpred : ∀ x ∈ S, ∃ u ∈ S, (u, x) ∈ pairs) :
    ∀ k : Nat, ∃ (v : Nat) (l : List Nat), v ∈ S ∧ (∀ x ∈ l, x ∈ S) ∧
      l.length = k ∧ List.Chain (edgeRel pairs) v l := by
  intro k
  induction k with
  | zero =>
    obtain ⟨x0, hx0⟩ : ∃ x0, x0 ∈ S := by
      cases S with
      | nil => exact absurd rfl hS
      | cons a S' => exact ⟨a, List.mem_cons_self a S'⟩
    exact ⟨x0, [], hx0, fun x hx => absurd hx (List.not_mem_nil x), rfl,
      List.Chain.nil⟩
  | succ k ih =>
    obtain ⟨v, l, hvS, hlS, hlen, hch⟩ := ih
    obtain ⟨u, huS, hup⟩ := hpred v hvS
    refine ⟨u, v :: l, huS, ?_, by rw [List.length_cons, hlen],
      List.Chain.cons hup hch⟩
    intro x hx
    cases List.mem_cons.mp hx with
    | inl h => exact h ▸ hvS
    | inr h => exact hlS x h

/-- A duplicate-free list of elements of `S` is no longer than `S`. -/
theorem nodup_length_le {l S : List Nat} (hn : l.Nodup)
    (hsub : ∀ x ∈ l, x ∈ S) : l.length ≤ S.length :=
  calc l.length = l.toFinset.card := (List.toFinset_card_of_nodup hn).symm
    _ ≤ S.toFinset.card := Finset.card_le_card fun x hx =>
        List.mem_toFinset.mpr (hsub x (List.mem_toFinset.mp hx))
    _ ≤ S.length := List.toFinset_card_le S

/-- A list with a repetition splits around the repeated element. -/
theorem not_nodup_double (l : List Nat) (h : ¬ l.Nodup) :
    ∃ (a : Nat) (l₁ l₂ l₃ : List Nat), l = l₁ ++ (a :: (l₂ ++ (a :: l₃))) := by
  induction l with
  | nil => exact absurd List.nodup_nil h
  | cons b l' ih =>
    by_cases hb : b ∈ l'
    · obtain ⟨s, t, hst⟩ := List.append_of_mem hb
      exact ⟨b, [], s, t, by rw [hst]; rfl⟩
    · have hl' : ¬ l'.Nodup := fun hn => h (List.nodup_cons.mpr ⟨hb, hn⟩)
      obtain ⟨a, l₁, l₂, l₃, heq⟩ := ih hl'
      exact ⟨a, b :: l₁, l₂, l₃, by rw [heq]; rfl⟩

/-- Pigeonhole: a nonempty predecessor-closed set contains a cycle. -/
theorem cycleSet_hasCycle (pairs : List Edge) (S : List Nat) (hS : S ≠ [])
    (hpred : ∀ x ∈ S, ∃ u ∈ S, (u, x) ∈ pairs) : HasCycle pairs := by
  obtain ⟨v, l, hvS, hlS, hlen, hch⟩ :=
    exists_long_walk pairs S hS hpred (S.length + 1)
  have hnd : ¬ (v :: l).Nodup := by
    intro hn
    have hle := nodup_length_le hn (fun x hx =>
      (List.mem_cons.mp hx).elim (fun h => h ▸ hvS) (hlS x))
    rw [List.length_cons, hlen] at hle
    omega
  obtain ⟨a, l₁, l₂, l₃, heq⟩ := not_nodup_double (v :: l) hnd
  have hch' : List.Chain' (edgeRel pairs) (v :: l) := hch
  rw [heq] at hch'
  have h2 : List.Chain' (edgeRel pairs) (a :: (l₂ ++ (a :: l₃))) :=
    (List.chain'_append.mp hch').2.1
  have h3 : List.Chain (edgeRel pairs) a (l₂ ++ (a :: l₃)) := h2
  exact ⟨a, l₂, (List.chain_split.mp h3).1⟩

/-- Once a nonempty predecessor-closed set sits inside the remaining nodes,
the loop can never emit any of its members and must fail with the cycle
error. -/
theorem kahnLoop_cycle_err (pairs : List Edge) (S : List Nat) (hS : S ≠ [])
    (hpred : ∀ x ∈ S, ∃ u ∈ S, (u, x) ∈ pairs) :
    ∀ (fuel : Nat) (R : List Nat), (∀ x ∈ S, x ∈ R) →
      kahnLoop pairs fuel R = .error .cycleError := by
  have hex : ∃ x0, x0 ∈ S := by
    cases S with
    | nil => exact absurd rfl hS
    | cons a S' => exact ⟨a, List.mem_cons_self a S'⟩
  intro fuel
  induction fuel with
  | zero =>
    intro R hsub
    cases R with
    | nil =>
      obtain ⟨x0, hx0⟩ := hex
      exact absurd (hsub x0 hx0) (List.not_mem_nil x0)
    | cons v0 rest => rfl
  | succ fuel ih =>
    intro R hsub
    cases R with
    | nil =>
      obtain ⟨x0, hx0⟩ := hex
      exact absurd (hsub x0 hx0) (List.not_mem_nil x0)
    | cons v0 rest =>
      cases hf : (v0 :: rest).find? (ready pairs (v0 :: rest)) with
      | none => exact kahnLoop_cons_none pairs fuel v0 rest hf
      | some w =>
        rw [kahnLoop_cons_some pairs fuel v0 rest w hf]
        have hready : ready pairs (v0 :: rest) w = true := List.find?_some hf
        have hwS : w ∉ S := by
          intro hwS
          obtain ⟨u, huS, hup⟩ := hpred w hwS
          exact (ready_iff pairs _ w).mp hready (u, w) hup rfl (hsub u huS)
        have hsub' : ∀ x ∈ S, x ∈ (v0 :: rest).erase w := by
          intro x hx
          have hxw : x ≠ w := by
            intro hxw
            rw [hxw] at hx
            exact hwS hx
          exact (List.mem_erase_of_ne hxw).mpr (hsub x hx)
        rw [ih _ hsub']
        rfl

/-- Whenever the loop fails on a remaining list covered by its fuel, the
edges contain a cycle. -/
theorem kahnLoop_err_cycle (pairs : List Edge) :
    ∀ (fuel : Nat) (R : List Nat), R.length ≤ fuel → ∀ e : PyErr,
      kahnLoop pairs fuel R = .error e → HasCycle pairs := by
  intro fuel
  induction fuel with
  | zero =>
    intro R hlen e h
    cases R with
    | nil =>
      rw [kahnLoop_nil] at h
      exact Except.noConfusion h
    | cons v0 rest =>
      rw [List.length_cons] at hlen
      exact absurd hlen (Nat.not_succ_le_zero _)
  | succ fuel ih =>
    intro R hlen e h
    cases R with
    | nil =>
      rw [kahnLoop_nil] at h
      exact Except.noConfusion h
    | cons v0 rest =>
      cases hf : (v0 :: rest).find? (ready pairs (v0 :: rest)) with
      | none =>
        have hstuck := List.find?_eq_none.mp hf
        refine cycleSet_hasCycle pairs (v0 :: rest) (List.cons_ne_nil v0 rest)
          ?_
        intro x hx
        have hnr := hstuck x hx
        rw [ready_iff] at hnr
        push_neg at hnr
        obtain ⟨p, hp, h2, h1⟩ := hnr
        refine ⟨p.1, h1, ?_⟩
        rw [← h2]
        exact hp
      | some w =>
        rw [kahnLoop_cons_some pairs fuel v0 rest w hf] at h
        cases hrec : kahnLoop pairs fuel ((v0 :: rest).erase w) with
        | error e' =>
          have hw : w ∈ v0 :: rest := List.mem_of_find?_eq_some hf
          have hlen' : ((v0 :: rest).erase w).length ≤ fuel := by
            rw [List.length_erase_of_mem hw, List.length_cons]
            rw [List.length_cons] at hlen
            omega
          exact ih _ hlen' e' hrec
        | ok l' =>
          rw [hrec] at h
          exact Except.noConfusion h

/-! ## Template ordering theorems -/

/-- Unfolding `Template.order` to the resolver loop. -/
theorem order_eq (t : Template) :
    t.order =
      kahnLoop t.edges t.modules.length (List.range t.modules.length) := rfl

/-- With all wire endpoints in range, the nodes of a predecessor-closed set
of the template's edges are valid node indices. -/
theorem cycle_nodes_in_range (t : Template)
    (hrange : ∀ w ∈ t.wires, w.source.1 < t.modules.length ∧
      w.target.1 < t.modules.length)
    (S : List Nat) (hpred : ∀ x ∈ S, ∃ u ∈ S, (u, x) ∈ t.edges) :
    ∀ x ∈ S, x ∈ List.range t.modules.length := by
  intro x hx
  obtain ⟨u, huS, hup⟩ := hpred x hx
  obtain ⟨w, hw, hwe⟩ := List.mem_map.mp hup
  have ht : w.target.1 = x := by
    have h2 := congrArg Prod.snd hwe
    simpa using h2
  rw [List.mem_range, ← ht]
  exact (hrange w hw).2

/-- A template whose order resolves has no cycle among its edges. -/
theorem order_ok_not_cycle (t : Template)
    (hrange : ∀ w ∈ t.wires, w.source.1 < t.modules.length ∧
      w.target.1 < t.modules.length)
    (l : List Nat) (h : t.order = .ok l) : ¬ HasCycle t.edges := by
  intro hcyc
  obtain ⟨S, hS, hpred⟩ := cycle_pred t.edges hcyc
  have herr := kahnLoop_cycle_err t.edges S hS hpred t.modules.length
    (List.range t.modules.length) (cycle_nodes_in_range t hrange S hpred)
  rw [order_eq, herr] at h
  exact Except.noConfusion h

/-- C1: over in-range wires without cycles, `Template.order()` returns a
sequence holding each node index `0 .. n-1` exactly once (isolated nodes
included), in which every wire's source node index precedes its target node
index; at every point the emitted node is the least remaining ready one, so
ties go to the smallest original node index; and the result depends only on
the node count and the wire endpoints, so repeated calls on the same
template agree. -/
theorem order_of_acyclic (t : Template)
    (hrange : ∀ w ∈ t.wires, w.source.1 < t.modules.length ∧
      w.target.1 < t.modules.length)
    (hacyc : ¬ HasCycle t.edges) :
    ∃ l, t.order = .ok l ∧
      l.Perm (List.range t.modules.length) ∧
      (∀ i : Nat, i < t.modules.length → l.count i = 1) ∧
      (∀ w ∈ t.wires, List.Sublist [w.source.1, w.target.1] l) ∧
      (∀ l₁ w l₂, l = l₁ ++ w :: l₂ →
        ∀ x ∈ w :: l₂, ready t.edges (w :: l₂) x = true → w ≤ x) ∧
      (∀ t' : Template, t'.modules.length = t.modules.length →
        t'.edges = t.edges → t'.order = t.order) := by
  cases hres : t.order with
  | error e =>
    rw [order_eq] at hres
    exact absurd (kahnLoop_err_cycle t.edges t.modules.length _
      (by rw [List.length_range]) e hres) hacyc
  | ok l =>
    have hres' : kahnLoop t.edges t.modules.length
        (List.range t.modules.length) = .ok l := by
      rw [← order_eq]
      exact hres
    have hperm := kahnLoop_ok_perm t.edges t.modules.length _ l hres'
    refine ⟨l, rfl, hperm, ?_, ?_, ?_, ?_⟩
    · intro i hi
      rw [hperm.count_eq]
      exact List.count_eq_one_of_mem (List.nodup_range _)
        (List.mem_range.mpr hi)
    · intro w hw
      exact kahnLoop_ok_sublist t.edges t.modules.length _ l hres' _ _
        (List.mem_map_of_mem _ hw)
        (List.mem_range.mpr (hrange w hw).1)
        (List.mem_range.mpr (hrange w hw).2)
    · exact kahnLoop_ok_min t.edges t.modules.length _ l
        ((List.pairwise_lt_range t.modules.length).imp fun h =>
          Nat.le_of_lt h) hres'
    · intro t' h1 h2
      rw [order_eq t', h1, h2]
      exact hres'

/-- Witness for the C1 theorem: the two-node chain template resolves to
`[0, 1]` with all the listed properties. -/
theorem order_of_acyclic_witness :
    (∀ w ∈ chainTemplate.wires,
      w.source.1 < chainTemplate.modules.length ∧
      w.target.1 < chainTemplate.modules.length) ∧
    ¬ HasCycle chainTemplate.edges ∧
    ∃ l, chainTemplate.order = .ok l ∧
      l.Perm (List.range chainTemplate.modules.length) ∧
      (∀ i : Nat, i < chainTemplate.modules.length → l.count i = 1) ∧
      (∀ w ∈ chainTemplate.wires, List.Sublist [w.source.1, w.target.1] l) ∧
      (∀ l₁ w l₂, l = l₁ ++ w :: l₂ →
        ∀ x ∈ w :: l₂,
          ready chainTemplate.edges (w :: l₂) x = true → w ≤ x) ∧
      (∀ t' : Template, t'.modules.length = chainTemplate.modules.length →
        t'.edges = chainTemplate.edges → t'.order = chainTemplate.order) :=
  have hr : ∀ w ∈ chainTemplate.wires,
      w.source.1 < chainTemplate.modules.length ∧
      w.target.1 < chainTemplate.modules.length := by decide
  have hnc : ¬ HasCycle chainTemplate.edges :=
    order_ok_not_cycle chainTemplate hr [0, 1] rfl
  ⟨hr, hnc, order_of_acyclic chainTemplate hr hnc⟩

/-- C2: any cycle among in-range wires makes `Template.order()` fail with
`CycleError` — no part of an ordering is produced — and iteration over the
template likewise fails before yielding any node. -/
theorem order_of_cyclic (t : Template)
    (hrange : ∀ w ∈ t.wires, w.source.1 < t.modules.length ∧
      w.target.1 < t.modules.length)
    (hcyc : HasCycle t.edges) :
    t.order = .error .cycleError ∧ t.iter = .error .cycleError := by
  obtain ⟨S, hS, hpred⟩ := cycle_pred t.edges hcyc
  have horder : t.order = .error .cycleError := by
    rw [order_eq]
    exact kahnLoop_cycle_err t.edges S hS hpred t.modules.length _
      (cycle_nodes_in_range t hrange S hpred)
  refine ⟨horder, ?_⟩
  unfold Template.iter
  rw [horder]
  rfl

/-- Witness for the C2 theorem: the self-loop template fails. -/
theorem order_of_cyclic_witness :
    (∀ w ∈ loopTemplate.wires,
      w.source.1 < loopTemplate.modules.length ∧
      w.target.1 < loopTemplate.modules.length) ∧
    HasCycle loopTemplate.edges ∧
    loopTemplate.order = .error .cycleError ∧
    loopTemplate.iter = .error .cycleError :=
  have hr : ∀ w ∈ loopTemplate.wires,
      w.source.1 < loopTemplate.modules.length ∧
      w.target.1 < loopTemplate.modules.length := by decide
  have hedge : edgeRel loopTemplate.edges 0 0 := by
    show (0, 0) ∈ loopTemplate.edges
    decide
  have hcyc : HasCycle loopTemplate.edges :=
    ⟨0, [], List.chain_cons.mpr ⟨hedge, List.Chain.nil⟩⟩
  ⟨hr, hcyc, order_of_cyclic loopTemplate hr hcyc⟩

/-- C8: when the order resolves, iterating the template yields exactly the
node indices of the resolved processing order — each node index of the
template exactly once — and pairs each with precisely the wires whose
target is that node, as a sublist of the wire list, so wire declaration
order is preserved. -/
theorem iter_spec (t : Template) (ord : List Nat)
    (hord : t.order = .ok ord) :
    ∃ ps, t.iter = .ok ps ∧
      ps.map Prod.fst = ord ∧
      ord.Perm (List.range t.modules.length) ∧
      ∀ pr ∈ ps, List.Sublist pr.2 t.wires ∧
        ∀ w, w ∈ pr.2 ↔ (w ∈ t.wires ∧ w.target.1 = pr.1) := by
  refine ⟨ord.map fun id => (id, t.wires.filter fun w => w.target.1 == id),
    ?_, ?_, ?_, ?_⟩
  · unfold Template.iter
    rw [hord]
    rfl
  · rw [List.map_map]
    exact List.map_id ord
  · exact kahnLoop_ok_perm t.edges t.modules.length _ ord
      (by rw [← order_eq]; exact hord)
  · intro pr hpr
    obtain ⟨id, hid, hpr'⟩ := List.mem_map.mp hpr
    constructor
    · rw [← hpr']
      exact List.filter_sublist t.wires
    · intro w
      rw [← hpr']
      simp only [List.mem_filter, beq_iff_eq]

/-- Witness for the C8 theorem: iterating the chain template yields node 0
with no wires, then node 1 with the single wire into it. -/
theorem iter_spec_witness :
    chainTemplate.order = .ok [0, 1] ∧
    ∃ ps, chainTemplate.iter = .ok ps ∧
      ps.map Prod.fst = [0, 1] ∧
      ([0, 1] : List Nat).Perm (List.range chainTemplate.modules.length) ∧
      ∀ pr ∈ ps, List.Sublist pr.2 chainTemplate.wires ∧
        ∀ w, w ∈ pr.2 ↔ (w ∈ chainTemplate.wires ∧ w.target.1 = pr.1) :=
  ⟨rfl, iter_spec chainTemplate [0, 1] rfl⟩

/-! ## Registry theorems -/

/-- Successful registration always stores the module under its id. -/
theorem register_module_ok_store (r : Registry) (m : Module) (r' : Registry)
    (h : register_module r m = .ok r') : r' = r.store m.id m := by
  unfold register_module at h
  split at h
  · split at h
    · exact Except.noConfusion h
    · exact (Except.ok.inj h).symm
  · exact (Except.ok.inj h).symm

/-- C3 counterexample: a structurally identical re-registration is rejected.
`modJoinTwin` repeats `modJoin`'s definition attribute for attribute, yet
registering it over `regJoin` (which holds `modJoin` under the same id)
raises `ValueError("Module already registered")`, because `Module` defines
no structural equality and Python's `!=` falls back to object identity. -/
theorem register_identical_definition_conflict :
    Module.structEq modJoinTwin modJoin ∧ modJoinTwin.id = modJoin.id ∧
    regJoin modJoinTwin.id = some modJoin ∧
    register_module regJoin modJoinTwin = .error .moduleAlreadyRegistered :=
  ⟨by decide, rfl, rfl, rfl⟩

/-- C3 (amended): registration under a fresh id inserts the module; if the
very same module object already sits under the id, registration is a no-op
success; if a different object sits there — even a structurally identical
definition — registration fails with the conflict error and the registry is
left unchanged (the error carries no new registry). -/
theorem register_module_spec (r : Registry) (m : Module) :
    (r m.id = none →
      register_module r m = .ok (r.store m.id m) ∧
      (r.store m.id m) m.id = some m) ∧
    (r m.id = some m →
      ∃ r', register_module r m = .ok r' ∧ ∀ x, r' x = r x) ∧
    (∀ m₀, r m.id = some m₀ → m.oid ≠ m₀.oid →
      register_module r m = .error .moduleAlreadyRegistered) := by
  refine ⟨fun h => ⟨?_, ?_⟩, fun h => ?_, fun m₀ h hne => ?_⟩
  · unfold register_module; rw [h]
  · unfold Registry.store; rw [if_pos rfl]
  · refine ⟨r.store m.id m, ?_, fun x => ?_⟩
    · unfold register_module; rw [h]
      show (if m.oid ≠ m.oid then Except.error PyErr.moduleAlreadyRegistered
            else Except.ok (r.store m.id m)) = Except.ok (r.store m.id m)
      rw [if_neg (fun hx => hx rfl)]
    · unfold Registry.store
      by_cases hx : x = m.id
      · rw [if_pos hx, hx, h]
      · rw [if_neg hx]
  · unfold register_module; rw [h]
    show (if m.oid ≠ m₀.oid then Except.error PyErr.moduleAlreadyRegistered
          else Except.ok (r.store m.id m)) =
        Except.error PyErr.moduleAlreadyRegistered
    rw [if_pos hne]

/-- Witness for the C3 theorem: all three branches at concrete inputs. -/
theorem register_module_spec_witness :
    (emptyRegistry modJoin.id = none ∧
      register_module emptyRegistry modJoin =
        .ok (emptyRegistry.store modJoin.id modJoin)) ∧
    (regJoin modJoin.id = some modJoin ∧
      ∃ r', register_module regJoin modJoin = .ok r' ∧ ∀ x, r' x = regJoin x) ∧
    (regJoin modJoinTwin.id = some modJoin ∧ modJoinTwin.oid ≠ modJoin.oid ∧
      register_module regJoin modJoinTwin = .error .moduleAlreadyRegistered) :=
  ⟨⟨rfl, ((register_module_spec emptyRegistry modJoin).1 rfl).1⟩,
   ⟨rfl, (register_module_spec regJoin modJoin).2.1 rfl⟩,
   ⟨rfl, by decide, (register_module_spec regJoin modJoinTwin).2.2 modJoin rfl
      (by decide)⟩⟩

/-- C9: `lookup_module` returns the dict entry — after any successful
`register_module(m)` the entry under `m.id` is `m`, the most recently
registered module — and raises `KeyError` when nothing was ever registered
under the id. -/
theorem lookup_module_spec :
    (∀ (r : Registry) (id : String), r id = none →
      lookup_module r id = .error (.keyError id)) ∧
    (∀ (r : Registry) (m : Module) (r' : Registry),
      register_module r m = .ok r' → lookup_module r' m.id = .ok m) := by
  constructor
  · intro r id h; unfold lookup_module; rw [h]
  · intro r m r' h
    rw [register_module_ok_store r m r' h]
    unfold lookup_module Registry.store
    rw [if_pos rfl]

/-- Witness for the C9 theorem: the empty registry knows no id, and after
registering `modJoin` its id looks up to `modJoin`. -/
theorem lookup_module_spec_witness :
    (emptyRegistry "ncnr.ospec.join" = none ∧
      lookup_module emptyRegistry "ncnr.ospec.join" =
        .error (.keyError "ncnr.ospec.join")) ∧
    (register_module emptyRegistry modJoin = .ok regJoin ∧
      lookup_module regJoin modJoin.id = .ok modJoin) :=
  ⟨⟨rfl, lookup_module_spec.1 emptyRegistry "ncnr.ospec.join" rfl⟩,
   ⟨rfl, lookup_module_spec.2 emptyRegistry modJoin regJoin rfl⟩⟩

/-! ## Persistence theorems -/

/-- C5: `Template.__getstate__` tags the state with the engine's supported
format tag `'1.0'`, and `Template.__setstate__` rejects every other tag with
`TypeError('Template definition mismatch')` — no coercion path exists. -/
theorem template_setstate_version_check :
    (∀ t : Template, Template.getstate t = ("1.0", t)) ∧
    (∀ (v : String) (st : Template), v ≠ "1.0" →
      Template.setstate (v, st) = .error .templateFormatMismatch) := by
  refine ⟨fun t => rfl, fun v st hv => ?_⟩
  unfold Template.setstate
  rw [if_neg hv]

/-- Witness for the C5 theorem: loading a template pickled under tag `'0.9'`
fails. -/
theorem template_setstate_version_check_witness :
    ("0.9" : String) ≠ "1.0" ∧
    Template.setstate ("0.9", chainTemplate) = .error .templateFormatMismatch :=
  ⟨by decide,
   template_setstate_version_check.2 "0.9" chainTemplate (by decide)⟩

/-- C10: pickling a template and unpickling the result restores every
attribute unchanged, since `__getstate__` emits exactly the tag `'1.0'` that
`__setstate__` accepts, and `__setstate__` succeeds exactly on that tag,
returning exactly the attribute dict it was handed. -/
theorem template_pickle_roundtrip (t : Template) :
    Template.getstate t = ("1.0", t) ∧
    Template.setstate (Template.getstate t) = .ok t ∧
    (∀ st : Template, Template.setstate ("1.0", st) = .ok st) ∧
    (∀ (v : String) (st st' : Template),
      Template.setstate (v, st) = .ok st' → v = "1.0" ∧ st' = st) ∧
    (∀ st' : Template, Template.setstate (Template.getstate t) = .ok st' →
      st'.name = t.name ∧ st'.description = t.description ∧
      st'.modules = t.modules ∧ st'.wires = t.wires ∧
      st'.instrument = t.instrument ∧ st'.version = t.version) := by
  have hacc : ∀ (v : String) (st st' : Template),
      Template.setstate (v, st) = .ok st' → v = "1.0" ∧ st' = st := by
    intro v st st' h
    unfold Template.setstate at h
    by_cases hv : v = "1.0"
    · rw [if_pos hv] at h
      exact ⟨hv, (Except.ok.inj h).symm⟩
    · rw [if_neg hv] at h
      exact Except.noConfusion h
  refine ⟨rfl, rfl, fun st => rfl, hacc, fun st' h => ?_⟩
  obtain ⟨-, hst⟩ := hacc "1.0" t st' h
  rw [hst]
  exact ⟨rfl, rfl, rfl, rfl, rfl, rfl⟩

/-- Witness for the C10 theorem: the round trip on `chainTemplate`, and the
acceptance direction at the supported tag. -/
theorem template_pickle_roundtrip_witness :
    Template.setstate (Template.getstate chainTemplate) = .ok chainTemplate ∧
    (("1.0" : String) = "1.0" ∧ chainTemplate = chainTemplate) :=
  ⟨(template_pickle_roundtrip chainTemplate).2.1,
   (template_pickle_roundtrip chainTemplate).2.2.2.1 "1.0" chainTemplate
     chainTemplate rfl⟩

/-- C6 fails on the code: `Data.__setstate__` binds the unpacked version tag
but never compares it, so unpickling a Data state under any tag — here
`'9.9'` — succeeds silently instead of failing; and `Data.__getstate__`
returns the unbound bare name `__dict__`, so pickling raises `NameError`
rather than producing a tagged state. -/
theorem data_setstate_ignores_version :
    Data.setstate ("9.9", sampleData) = .ok sampleData ∧
    (∀ (v : String) (d : DataState), Data.setstate (v, d) = .ok d) ∧
    (∀ d : DataState, Data.getstate d = .error (.nameError "__dict__")) :=
  ⟨rfl, fun _ _ => rfl, fun _ => rfl⟩

/-! ## Instrument theorems -/

/-- Deduplication preserves the length exactly of duplicate-free lists. -/
theorem dedup_length_eq_iff (l : List String) :
    l.dedup.length = l.length ↔ l.Nodup := by
  constructor
  · intro h
    have hd := (List.dedup_sublist l).eq_of_length h
    rw [← hd]
    exact List.nodup_dedup l
  · intro h
    rw [List.dedup_eq_self.mpr h]

/-- The check `_check_datatypes` passes exactly when the used and the declared
datatype ids cover each other. -/
theorem check_datatypes_ok_iff (datatypes : List Datatype)
    (modules : List Module) :
    check_datatypes datatypes modules = .ok () ↔
      ((∀ d ∈ terminal_datatypes modules, d ∈ datatypes.map Datatype.id) ∧
       (∀ d ∈ datatypes.map Datatype.id, d ∈ terminal_datatypes modules)) := by
  unfold check_datatypes
  by_cases h1 : ∃ t ∈ terminal_datatypes modules, t ∉ datatypes.map Datatype.id
  · rw [if_pos h1]
    refine iff_of_false (fun h => Except.noConfusion h) ?_
    rintro ⟨ha, -⟩
    obtain ⟨t, ht, hnd⟩ := h1
    exact hnd (ha t ht)
  · rw [if_neg h1]
    by_cases h2 : ∃ t ∈ datatypes.map Datatype.id, t ∉ terminal_datatypes modules
    · rw [if_pos h2]
      refine iff_of_false (fun h => Except.noConfusion h) ?_
      rintro ⟨-, hb⟩
      obtain ⟨t, ht, hnu⟩ := h2
      exact hnu (hb t ht)
    · rw [if_neg h2]
      refine iff_of_true rfl ⟨?_, ?_⟩
      · intro d hd
        by_contra hnd
        exact h1 ⟨d, hd, hnd⟩
      · intro d hd
        by_contra hnu
        exact h2 ⟨d, hd, hnu⟩

/-- The check `_check_datatypes` has exactly three outcomes. -/
theorem check_datatypes_cases (datatypes : List Datatype)
    (modules : List Module) :
    check_datatypes datatypes modules = .ok () ∨
    check_datatypes datatypes modules = .error .undefinedTypes ∨
    check_datatypes datatypes modules = .error .unusedTypes := by
  unfold check_datatypes
  split
  · exact Or.inr (Or.inl rfl)
  · split
    · exact Or.inr (Or.inr rfl)
    · exact Or.inl rfl

/-- The check `_check_names` passes exactly when the display names are distinct. -/
theorem check_names_ok_iff (modules : List Module) :
    check_names modules = .ok () ↔ (modules.map Module.name).Nodup := by
  unfold check_names
  have hlen : (modules.map Module.name).length = modules.length :=
    List.length_map modules Module.name
  by_cases hc : (modules.map Module.name).dedup.length = modules.length
  · rw [if_neg (fun hne => hne hc)]
    exact iff_of_true rfl
      ((dedup_length_eq_iff _).mp (hc.trans hlen.symm))
  · rw [if_pos hc]
    refine iff_of_false (fun h => Except.noConfusion h) ?_
    intro hn
    exact hc (((dedup_length_eq_iff _).mpr hn).trans hlen)

/-- The check `_check_names` rejects duplicated display names with the
names-must-be-unique `TypeError`. -/
theorem check_names_err (modules : List Module)
    (h : ¬ (modules.map Module.name).Nodup) :
    check_names modules = .error .duplicateNames := by
  have hlen : (modules.map Module.name).length = modules.length :=
    List.length_map modules Module.name
  have hne : (modules.map Module.name).dedup.length ≠ modules.length := by
    intro hc
    exact h ((dedup_length_eq_iff _).mp (hc.trans hlen.symm))
  unfold check_names
  rw [if_pos hne]

/-- A datatype-check failure aborts `Instrument.__init__` with that error. -/
theorem mkInstrument_dt_err (id name : String)
    (menu : List (String × List Module)) (datatypes : List Datatype)
    (requires archive : Option String) (e : PyErr)
    (h : check_datatypes datatypes (instrument_modules menu) = .error e) :
    mkInstrument id name menu datatypes requires archive = .error e := by
  unfold mkInstrument
  rw [h]

/-- When the datatype check passes, a name-check failure aborts
`Instrument.__init__` with that error. -/
theorem mkInstrument_names_err (id name : String)
    (menu : List (String × List Module)) (datatypes : List Datatype)
    (requires archive : Option String) (e : PyErr)
    (h1 : check_datatypes datatypes (instrument_modules menu) = .ok ())
    (h2 : check_names (instrument_modules menu) = .error e) :
    mkInstrument id name menu datatypes requires archive = .error e := by
  unfold mkInstrument
  rw [h1, h2]

/-- A constructed instrument passed both of its `__init__` checks. -/
theorem mkInstrument_ok_checks (id name : String)
    (menu : List (String × List Module)) (datatypes : List Datatype)
    (requires archive : Option String) (inst : Instrument)
    (h : mkInstrument id name menu datatypes requires archive = .ok inst) :
    check_datatypes datatypes (instrument_modules menu) = .ok () ∧
    check_names (instrument_modules menu) = .ok () := by
  cases hdt : check_datatypes datatypes (instrument_modules menu) with
  | error e =>
    rw [mkInstrument_dt_err id name menu datatypes requires archive e hdt] at h
    exact Except.noConfusion h
  | ok u =>
    cases u
    cases hnm : check_names (instrument_modules menu) with
    | error e =>
      rw [mkInstrument_names_err id name menu datatypes requires archive e
        hdt hnm] at h
      exact Except.noConfusion h
    | ok u =>
      cases u
      exact ⟨rfl, rfl⟩

/-- C4: `Instrument.__init__` succeeds only when the declared datatype ids
and the ids referenced by the modules' terminals coincide as sets; any
undefined or unused datatype makes construction fail with one of the two
datatype-invariant `TypeError`s. -/
theorem instrument_datatype_invariant (id name : String)
    (menu : List (String × List Module)) (datatypes : List Datatype)
    (requires archive : Option String) :
    (∀ inst, mkInstrument id name menu datatypes requires archive = .ok inst →
      ∀ d, d ∈ terminal_datatypes (instrument_modules menu) ↔
        d ∈ datatypes.map Datatype.id) ∧
    ((∃ d ∈ terminal_datatypes (instrument_modules menu),
        d ∉ datatypes.map Datatype.id) ∨
     (∃ d ∈ datatypes.map Datatype.id,
        d ∉ terminal_datatypes (instrument_modules menu)) →
      mkInstrument id name menu datatypes requires archive =
        .error .undefinedTypes ∨
      mkInstrument id name menu datatypes requires archive =
        .error .unusedTypes) := by
  constructor
  · intro inst h d
    obtain ⟨h1, -⟩ :=
      mkInstrument_ok_checks id name menu datatypes requires archive inst h
    obtain ⟨ha, hb⟩ := (check_datatypes_ok_iff _ _).mp h1
    exact ⟨fun hd => ha d hd, fun hd => hb d hd⟩
  · intro hbad
    have hnok : check_datatypes datatypes (instrument_modules menu) ≠ .ok () := by
      intro hok
      obtain ⟨ha, hb⟩ := (check_datatypes_ok_iff _ _).mp hok
      rcases hbad with ⟨d, hd, hnd⟩ | ⟨d, hd, hnd⟩
      · exact hnd (ha d hd)
      · exact hnd (hb d hd)
    rcases check_datatypes_cases datatypes (instrument_modules menu) with
      hok | herr | herr
    · exact absurd hok hnok
    · exact Or.inl
        (mkInstrument_dt_err id name menu datatypes requires archive _ herr)
    · exact Or.inr
        (mkInstrument_dt_err id name menu datatypes requires archive _ herr)

/-- Witness for the C4 theorem: `soloMenu`'s module uses `data2d.ospec`,
which an empty datatype declaration leaves undefined, so construction
fails. -/
theorem instrument_datatype_invariant_witness :
    (∃ d ∈ terminal_datatypes (instrument_modules soloMenu),
      d ∉ ([] : List Datatype).map Datatype.id) ∧
    (mkInstrument "ncnr.ospec" "Offspecular" soloMenu [] none none =
        .error .undefinedTypes ∨
     mkInstrument "ncnr.ospec" "Offspecular" soloMenu [] none none =
        .error .unusedTypes) :=
  ⟨by decide,
   (instrument_datatype_invariant "ncnr.ospec" "Offspecular" soloMenu []
      none none).2 (Or.inl (by decide))⟩

/-- C7 counterexample: `dupNameMenu` holds two modules that share the
display name `Join`, yet with no declared datatypes the construction fails
with the undefined-types error — the datatype check runs first — not with
the duplicate-names error the claim requires for every such instrument. -/
theorem instrument_dup_names_other_error :
    ¬ ((instrument_modules dupNameMenu).map Module.name).Nodup ∧
    mkInstrument "ncnr.ospec" "Offspecular" dupNameMenu [] none none =
      .error .undefinedTypes ∧
    PyErr.undefinedTypes ≠ PyErr.duplicateNames :=
  ⟨by decide, rfl, by decide⟩

/-- C7 (amended): duplicated display names always make construction fail,
and the failure is the duplicate-names error whenever the datatype check
(which runs first) passes; construction succeeds only when the display
names are unique within the instrument. -/
theorem instrument_name_uniqueness (id name : String)
    (menu : List (String × List Module)) (datatypes : List Datatype)
    (requires archive : Option String) :
    (¬ ((instrument_modules menu).map Module.name).Nodup →
      (∃ e, mkInstrument id name menu datatypes requires archive = .error e) ∧
      (check_datatypes datatypes (instrument_modules menu) = .ok () →
        mkInstrument id name menu datatypes requires archive =
          .error .duplicateNames)) ∧
    (∀ inst, mkInstrument id name menu datatypes requires archive = .ok inst →
      ((instrument_modules menu).map Module.name).Nodup) := by
  constructor
  · intro hdup
    constructor
    · rcases check_datatypes_cases datatypes (instrument_modules menu) with
        hok | herr | herr
      · exact ⟨.duplicateNames,
          mkInstrument_names_err id name menu datatypes requires archive _
            hok (check_names_err _ hdup)⟩
      · exact ⟨.undefinedTypes,
          mkInstrument_dt_err id name menu datatypes requires archive _ herr⟩
      · exact ⟨.unusedTypes,
          mkInstrument_dt_err id name menu datatypes requires archive _ herr⟩
    · intro hok
      exact mkInstrument_names_err id name menu datatypes requires archive _
        hok (check_names_err _ hdup)
  · intro inst h
    exact (check_names_ok_iff _).mp
      (mkInstrument_ok_checks id name menu datatypes requires archive inst h).2

/-- Witness for the C7 theorem: with the one datatype the two `Join` modules
use declared, the duplicated display name is what makes construction
fail. -/
theorem instrument_name_uniqueness_witness :
    ¬ ((instrument_modules dupNameMenu).map Module.name).Nodup ∧
    mkInstrument "ncnr.ospec" "Offspecular" dupNameMenu [dtype2d] none none =
      .error .duplicateNames :=
  ⟨by decide,
   ((instrument_name_uniqueness "ncnr.ospec" "Offspecular" dupNameMenu
      [dtype2d] none none).1 (by decide)).2 rfl⟩

end Dataflow
